import Mathlib

/-!
Verification of the revision-scope staleness protocol of the revisium client.

The embedding models `RevisionScope` (src/revision-scope.ts), the guard
helpers of `data-operations.ts`, and the `BranchScope` owner registry.
A scope's mutable fields become `ScopeState`; its immutable construction
parameters become `ScopeConfig`.  The asynchronous `getRevisionId` /
`refresh` methods are split at their suspension points: a synchronous
start segment and the promise-settlement handlers, exactly as the
JavaScript event loop executes them.  A small trace semantics (`step` /
`run`) explores every interleaving of one scope's operations; a separate
`OwnerWorld` model covers the owner registry and the commit broadcast.
-/

namespace Revisium

/-- The immutable (organizationId, projectName, branchName) triple,
`BranchContext` in data-operations.ts. -/
structure BranchContext where
  organizationId : String
  projectName : String
  branchName : String
deriving DecidableEq

/-- `RevisionScope._branchKey`: the identity string
`organizationId/projectName/branchName` (revision-scope.ts line 131). -/
def branchKey (b : BranchContext) : String :=
  b.organizationId ++ "/" ++ b.projectName ++ "/" ++ b.branchName

/-- The `revisionMode` field of `RevisionScopeInit`. -/
inductive RevisionMode
  | draft
  | head
  | explicit
deriving DecidableEq

/-- The immutable per-scope construction data of `RevisionScope`:
`_branch`, `_isDraft`, `_revisionMode`. -/
structure ScopeConfig where
  branch : BranchContext
  isDraft : Bool
  revisionMode : RevisionMode
deriving DecidableEq

/-- The mutable fields of `RevisionScope`: `_revisionId`, `_stale`,
`_disposed`, `_refreshPromise`.  An in-flight refresh promise is
identified by a ticket number. -/
structure ScopeState where
  revisionId : String
  stale : Bool
  disposed : Bool
  refreshPromise : Option Nat
deriving DecidableEq

/-- Errors thrown by the scope layer itself (spec section 7). -/
inductive ScopeError
  | disposedErr
  | notDraftErr
  | contextNotSetErr
deriving DecidableEq

/-- `RevisionScope.markStale` (revision-scope.ts lines 101-106): no-op in
explicit mode, otherwise sets `_stale := true`. -/
def markStale (cfg : ScopeConfig) (s : ScopeState) : ScopeState :=
  if cfg.revisionMode = RevisionMode.explicit then s
  else { s with stale := true }

/-- `RevisionScope.dispose` (lines 117-123), local part: return if already
disposed, else set `_disposed := true`.  (The owner-side
`unregisterScope` effect is modelled in `OwnerWorld.disposeScope`.) -/
def disposeLocal (s : ScopeState) : ScopeState :=
  if s.disposed then s else { s with disposed := true }

/-- Outcome of the synchronous segment of `getRevisionId`:
either the cached id is returned immediately, or the caller awaits the
fetch with the given ticket; `newFetch` records whether this call
created the fetch or joined an existing `_refreshPromise`. -/
inductive GetStart
  | immediate (id : String)
  | awaitTicket (t : Nat) (newFetch : Bool)
deriving DecidableEq

/-- `RevisionScope.getRevisionId` (lines 142-160), synchronous segment:
assert not disposed; if stale, reuse `_refreshPromise` or install a new
fetch (ticket `fresh`); otherwise return `_revisionId` at once. -/
def getRevisionIdStart (s : ScopeState) (fresh : Nat) :
    Except ScopeError (ScopeState × GetStart) :=
  if s.disposed then Except.error ScopeError.disposedErr
  else if s.stale then
    match s.refreshPromise with
    | some t => Except.ok (s, GetStart.awaitTicket t false)
    | none =>
        Except.ok ({ s with refreshPromise := some fresh },
          GetStart.awaitTicket fresh true)
  else Except.ok (s, GetStart.immediate s.revisionId)

/-- The fulfilment handler installed by `getRevisionId` (lines 146-151):
store the fetched id, clear `_stale`, clear `_refreshPromise`.  It runs
unconditionally on whatever the scope state is at settlement time. -/
def refreshFulfilled (s : ScopeState) (id : String) : ScopeState :=
  { s with revisionId := id, stale := false, refreshPromise := none }

/-- The rejection handler installed by `getRevisionId` (lines 152-155):
clear `_refreshPromise` only and rethrow. -/
def refreshRejected (s : ScopeState) : ScopeState :=
  { s with refreshPromise := none }

/-- `RevisionScope.refresh` (lines 108-115), synchronous segment up to
the `await`: assert not disposed; return at once in explicit mode;
otherwise issue a fresh fetch of its own (it never consults
`_refreshPromise`).  `Except.ok true` means a fetch was issued. -/
def refreshStart (cfg : ScopeConfig) (s : ScopeState) :
    Except ScopeError Bool :=
  if s.disposed then Except.error ScopeError.disposedErr
  else if cfg.revisionMode = RevisionMode.explicit then Except.ok false
  else Except.ok true

/-- The continuation of `refresh` after its `await`: store the fetched
id and clear `_stale` (it does not touch `_refreshPromise`). -/
def refreshResume (s : ScopeState) (id : String) : ScopeState :=
  { s with revisionId := id, stale := false }

/-- Outcome of the synchronous prefix of a mutating data operation. -/
inductive MutStart
  | rejected (e : ScopeError)
  | resolving (s : ScopeState) (g : GetStart)
deriving DecidableEq

/-- `createRow` in data-operations.ts (lines 787-801): `assertDraft`
(which runs `assertContext` first, then the `isDraft` check, lines
87-98) and then `await ctx.getRevisionId()`.  All mutating data
operations (createTable, updateRow, deleteRow, renameRow, the bulk
variants, patchRow, uploadFile, ...) share this exact prefix. -/
def createRowStart (cfg : ScopeConfig) (s : ScopeState) (fresh : Nat) :
    MutStart :=
  if cfg.branch.organizationId = "" then
    MutStart.rejected ScopeError.contextNotSetErr
  else if cfg.isDraft = false then
    MutStart.rejected ScopeError.notDraftErr
  else
    match getRevisionIdStart s fresh with
    | Except.error e => MutStart.rejected e
    | Except.ok (s2, g) => MutStart.resolving s2 g

/-- Promise settlement semantics: the value a caller awaiting ticket
`a` receives when the fetch with ticket `t` fulfils with `v`. -/
def deliveredValue (a t : Nat) (v : String) : Option String :=
  if a = t then some v else none

/-- Promise settlement semantics: whether a caller awaiting ticket `a`
receives the rejection of the fetch with ticket `t`. -/
def deliveredError (a t : Nat) : Bool :=
  a = t

/-!
## Single-scope trace semantics

One scope together with the multiset of its outstanding revision-id
fetches.  `pendingGet` are fetches issued by `getRevisionId`,
`pendingRefresh` those issued by the public `refresh()`; `nextTicket`
numbers fetches, so `nextTicket` also counts the fetches ever issued.
-/

/-- A scope plus the outstanding fetches of the runtime. -/
structure Sys where
  scope : ScopeState
  pendingGet : List Nat
  pendingRefresh : List Nat
  nextTicket : Nat
deriving DecidableEq

/-- One interleavable event: the synchronous segment of an operation,
or the settlement of an outstanding fetch. -/
inductive Action
  | callGet
  | callRefresh
  | callMarkStale
  | callDispose
  | settleGetOk (t : Nat) (id : String)
  | settleGetErr (t : Nat)
  | settleRefreshOk (t : Nat) (id : String)
  | settleRefreshErr (t : Nat)
deriving DecidableEq

/-- Event-loop step.  Settlement of a ticket not outstanding, or a call
that throws synchronously, leaves the system unchanged. -/
def step (cfg : ScopeConfig) (w : Sys) : Action → Sys
  | Action.callGet =>
      match getRevisionIdStart w.scope w.nextTicket with
      | Except.error _ => w
      | Except.ok (s2, GetStart.immediate _) => { w with scope := s2 }
      | Except.ok (s2, GetStart.awaitTicket t true) =>
          { w with scope := s2, pendingGet := w.pendingGet ++ [t],
                   nextTicket := w.nextTicket + 1 }
      | Except.ok (s2, GetStart.awaitTicket _ false) => { w with scope := s2 }
  | Action.callRefresh =>
      match refreshStart cfg w.scope with
      | Except.error _ => w
      | Except.ok false => w
      | Except.ok true =>
          { w with pendingRefresh := w.pendingRefresh ++ [w.nextTicket],
                   nextTicket := w.nextTicket + 1 }
  | Action.callMarkStale => { w with scope := markStale cfg w.scope }
  | Action.callDispose => { w with scope := disposeLocal w.scope }
  | Action.settleGetOk t id =>
      if t ∈ w.pendingGet then
        { w with scope := refreshFulfilled w.scope id,
                 pendingGet := w.pendingGet.erase t }
      else w
  | Action.settleGetErr t =>
      if t ∈ w.pendingGet then
        { w with scope := refreshRejected w.scope,
                 pendingGet := w.pendingGet.erase t }
      else w
  | Action.settleRefreshOk t id =>
      if t ∈ w.pendingRefresh then
        { w with scope := refreshResume w.scope id,
                 pendingRefresh := w.pendingRefresh.erase t }
      else w
  | Action.settleRefreshErr t =>
      if t ∈ w.pendingRefresh then
        { w with pendingRefresh := w.pendingRefresh.erase t }
      else w

/-- Run a list of events. -/
def run (cfg : ScopeConfig) (w : Sys) : List Action → Sys
  | [] => w
  | a :: rest => run cfg (step cfg w a) rest

/-!
## Owner registry model

`BranchScope` from the repository: its identity, its own cached head
and draft revision ids, and the `_scopes` registry.  Handles are
addressed by a natural-number identity (object identity in JS). -/

/-- A revision scope: construction data plus mutable state. -/
structure Handle where
  cfg : ScopeConfig
  state : ScopeState
deriving DecidableEq

/-- `markStale` lifted to a handle. -/
def markStaleH (h : Handle) : Handle :=
  { h with state := markStale h.cfg h.state }

/-- The `BranchScope` owner together with every handle it ever created.
`registered` is the `_scopes` set; `handles` gives each handle's
current contents. -/
structure OwnerWorld where
  branch : BranchContext
  headRevisionId : String
  draftRevisionId : String
  registered : Finset Nat
  handles : Nat → Handle

/-- `BranchScope.notifyBranchChanged` (part_000 lines 136-146): return
unless the key matches the owner's own identity; otherwise call
`markStale` on every registered scope other than the excluded one. -/
def notifyBranchChanged (w : OwnerWorld) (bk : String)
    (exclude : Option Nat) : OwnerWorld :=
  if bk ≠ branchKey w.branch then w
  else
    { w with handles := fun j =>
        if j ∈ w.registered ∧ exclude ≠ some j then markStaleH (w.handles j)
        else w.handles j }

/-- `BranchScope.unregisterScope` (part_000 lines 148-150):
`_scopes.delete(scope)`. -/
def unregisterScope (w : OwnerWorld) (i : Nat) : OwnerWorld :=
  { w with registered := w.registered.erase i }

/-- `RevisionScope.dispose` (revision-scope.ts lines 117-123) seen from
the owner world: return if already disposed, else set `_disposed` and
unregister exactly this handle. -/
def disposeScope (w : OwnerWorld) (i : Nat) : OwnerWorld :=
  if (w.handles i).state.disposed then w
  else
    { w with
        handles := fun j =>
          if j = i then
            { w.handles j with
                state := { (w.handles j).state with disposed := true } }
          else w.handles j,
        registered := w.registered.erase i }

/-- `BranchScope.refreshRevisionIds` (part_000 lines 152-159) with the
two fetched ids as parameters. -/
def refreshRevisionIds (w : OwnerWorld) (hFetched dFetched : String) :
    OwnerWorld :=
  { w with headRevisionId := hFetched, draftRevisionId := dFetched }

/-- The post-mutation block repeated verbatim in `commit`,
`revertChanges`, `applyMigrations` and `applyMigrationsWithStatus`
(revision-scope.ts lines 456-462, 469-475, 417-423, 439-445): `await
owner.refreshRevisionIds()`, re-fetch the draft id directly into
`_revisionId` (`dDirect`), clear `_stale`, then
`owner.notifyBranchChanged(branchKey, this)` with self excluded. -/
def postMutationUpdate (w : OwnerWorld) (i : Nat)
    (hFetched dFetched dDirect : String) : OwnerWorld :=
  let w1 := refreshRevisionIds w hFetched dFetched
  let w2 :=
    { w1 with handles := fun j =>
        if j = i then
          { w1.handles j with
              state := { (w1.handles j).state with
                           revisionId := dDirect, stale := false } }
        else w1.handles j }
  notifyBranchChanged w2 (branchKey (w.handles i).cfg.branch) (some i)

/-- `RevisionScope.commit` (revision-scope.ts lines 453-464) on handle
`i`, with the remote responses as parameters: `hFetched`/`dFetched` are
what `owner.refreshRevisionIds` fetches, `dDirect` is the draft id the
handle then re-fetches directly via `ops.fetchDraftRevisionId`.  The
guard sequence is `assertNotDisposed`, then inside `ops.commit`
(data-operations.ts lines 1004-1019) `assertDraft` = `assertContext`
followed by the `isDraft` check. -/
def commitScope (w : OwnerWorld) (i : Nat)
    (hFetched dFetched dDirect : String) : Except ScopeError OwnerWorld :=
  if (w.handles i).state.disposed then Except.error ScopeError.disposedErr
  else if (w.handles i).cfg.branch.organizationId = "" then
    Except.error ScopeError.contextNotSetErr
  else if (w.handles i).cfg.isDraft = false then
    Except.error ScopeError.notDraftErr
  else Except.ok (postMutationUpdate w i hFetched dFetched dDirect)

/-- `RevisionScope.revertChanges` (lines 466-476): identical guard and
update sequence to `commit` (via `ops.revertChanges`, data-operations.ts
lines 1021-1032). -/
def revertScope (w : OwnerWorld) (i : Nat)
    (hFetched dFetched dDirect : String) : Except ScopeError OwnerWorld :=
  if (w.handles i).state.disposed then Except.error ScopeError.disposedErr
  else if (w.handles i).cfg.branch.organizationId = "" then
    Except.error ScopeError.contextNotSetErr
  else if (w.handles i).cfg.isDraft = false then
    Except.error ScopeError.notDraftErr
  else Except.ok (postMutationUpdate w i hFetched dFetched dDirect)

/-- The guard prefix of `RevisionScope.applyMigrations` (lines 407-424):
`assertNotDisposed`, then inside `ops.applyMigrations`
(data-operations.ts lines 484-501) `assertDraft`.  `none` means every
guard passed and the operation proceeds to revision resolution. -/
def applyMigrationsGuard (w : OwnerWorld) (i : Nat) : Option ScopeError :=
  if (w.handles i).state.disposed then some ScopeError.disposedErr
  else if (w.handles i).cfg.branch.organizationId = "" then
    some ScopeError.contextNotSetErr
  else if (w.handles i).cfg.isDraft = false then
    some ScopeError.notDraftErr
  else none

/-!
## Invariants of the single-scope trace semantics
-/

/-- The fetches outstanding through the `getRevisionId` path are exactly
the one recorded in `_refreshPromise`. -/
def getPathInvariant (w : Sys) : Prop :=
  w.pendingGet = w.scope.refreshPromise.toList

/-- All-fields invariant of an explicit-mode scope: never stale, the
construction-time id `r0` cached, no refresh recorded and no fetch of
any kind ever issued (`nextTicket` stays at `n0`). -/
def ExplicitInv (r0 : String) (n0 : Nat) (w : Sys) : Prop :=
  w.scope.stale = false ∧ w.scope.revisionId = r0 ∧
  w.scope.refreshPromise = none ∧ w.pendingGet = [] ∧
  w.pendingRefresh = [] ∧ w.nextTicket = n0

/-!
## Concrete fixtures used by the witnesses and counterexamples
-/

/-- A branch identity. -/
def branchEx : BranchContext :=
  { organizationId := "org1", projectName := "proj1", branchName := "main" }

/-- A draft-mode scope configuration, as `BranchScope.draft()` builds it. -/
def cfgDraftEx : ScopeConfig :=
  { branch := branchEx, isDraft := true, revisionMode := RevisionMode.draft }

/-- A head-mode scope configuration, as `BranchScope.head()` builds it. -/
def cfgHeadEx : ScopeConfig :=
  { branch := branchEx, isDraft := false, revisionMode := RevisionMode.head }

/-- An explicit-mode scope configuration, as `BranchScope.revision()`
builds it. -/
def cfgExplicitEx : ScopeConfig :=
  { branch := branchEx, isDraft := false,
    revisionMode := RevisionMode.explicit }

/-- A fresh scope state caching id `d0`. -/
def sFreshEx : ScopeState :=
  { revisionId := "d0", stale := false, disposed := false,
    refreshPromise := none }

/-- A stale scope state. -/
def sStaleEx : ScopeState :=
  { revisionId := "d0", stale := true, disposed := false,
    refreshPromise := none }

/-- A disposed scope state. -/
def sDisposedEx : ScopeState :=
  { revisionId := "d0", stale := false, disposed := true,
    refreshPromise := none }

/-- An owner world with two registered draft handles 0 and 1 and one
registered head handle 2, all fresh on id `d0`. -/
def ownerEx : OwnerWorld :=
  { branch := branchEx, headRevisionId := "h0", draftRevisionId := "d0",
    registered := {0, 1, 2},
    handles := fun j =>
      if j = 2 then { cfg := cfgHeadEx, state := { sFreshEx with revisionId := "h0" } }
      else { cfg := cfgDraftEx, state := sFreshEx } }

/-!
## Helper lemmas
-/

theorem run_append (cfg : ScopeConfig) (w : Sys) (l1 l2 : List Action) :
    run cfg w (l1 ++ l2) = run cfg (run cfg w l1) l2 := by
  induction l1 generalizing w with
  | nil => rfl
  | cons a rest ih => exact ih (step cfg w a)

theorem step_preserves_getPathInvariant (cfg : ScopeConfig) (w : Sys)
    (a : Action) (h : getPathInvariant w) :
    getPathInvariant (step cfg w a) := by
  unfold getPathInvariant at h ⊢
  cases a with
  | callGet =>
    simp only [step, getRevisionIdStart]
    by_cases hd : w.scope.disposed = true
    · simp [hd, h]
    · simp only [Bool.not_eq_true] at hd
      by_cases hs : w.scope.stale = true
      · cases hp : w.scope.refreshPromise with
        | some t => simp [hd, hs, hp, h]
        | none =>
          rw [hp] at h
          simp only [Option.toList] at h
          simp [hd, hs, hp, h, Option.toList]
      · simp only [Bool.not_eq_true] at hs
        simp [hd, hs, h]
  | callRefresh =>
    simp only [step, refreshStart]
    by_cases hd : w.scope.disposed = true
    · simp [hd, h]
    · simp only [Bool.not_eq_true] at hd
      by_cases hm : cfg.revisionMode = RevisionMode.explicit
      · simp [hd, hm, h]
      · simp [hd, hm, h]
  | callMarkStale =>
    simp only [step, markStale]
    by_cases hm : cfg.revisionMode = RevisionMode.explicit
    · simp [hm, h]
    · simp [hm, h]
  | callDispose =>
    simp only [step, disposeLocal]
    by_cases hd : w.scope.disposed = true
    · simp [hd, h]
    · simp [hd, h]
  | settleGetOk t id =>
    simp only [step]
    by_cases hm : t ∈ w.pendingGet
    · rw [if_pos hm]
      cases hp : w.scope.refreshPromise with
      | none =>
        rw [hp] at h
        simp only [Option.toList] at h
        rw [h] at hm
        simp at hm
      | some t0 =>
        rw [hp] at h
        simp only [Option.toList] at h
        have ht : t = t0 := by rw [h] at hm; simpa using hm
        subst ht
        simp [h, refreshFulfilled, Option.toList]
    · rw [if_neg hm]; exact h
  | settleGetErr t =>
    simp only [step]
    by_cases hm : t ∈ w.pendingGet
    · rw [if_pos hm]
      cases hp : w.scope.refreshPromise with
      | none =>
        rw [hp] at h
        simp only [Option.toList] at h
        rw [h] at hm
        simp at hm
      | some t0 =>
        rw [hp] at h
        simp only [Option.toList] at h
        have ht : t = t0 := by rw [h] at hm; simpa using hm
        subst ht
        simp [h, refreshRejected, Option.toList]
    · rw [if_neg hm]; exact h
  | settleRefreshOk t id =>
    simp only [step]
    by_cases hm : t ∈ w.pendingRefresh
    · simp [hm, refreshResume, h]
    · simp [hm, h]
  | settleRefreshErr t =>
    simp only [step]
    by_cases hm : t ∈ w.pendingRefresh
    · simp [hm, h]
    · simp [hm, h]

theorem run_preserves_getPathInvariant (cfg : ScopeConfig)
    (acts : List Action) (w : Sys) (h : getPathInvariant w) :
    getPathInvariant (run cfg w acts) := by
  induction acts generalizing w with
  | nil => exact h
  | cons a rest ih =>
    exact ih (step cfg w a) (step_preserves_getPathInvariant cfg w a h)

theorem step_preserves_ExplicitInv (cfg : ScopeConfig)
    (hmode : cfg.revisionMode = RevisionMode.explicit)
    (r0 : String) (n0 : Nat) (w : Sys) (a : Action)
    (h : ExplicitInv r0 n0 w) : ExplicitInv r0 n0 (step cfg w a) := by
  obtain ⟨h1, h2, h3, h4, h5, h6⟩ := h
  cases a with
  | callGet =>
    by_cases hd : w.scope.disposed = true
    · have hw : step cfg w Action.callGet = w := by
        simp [step, getRevisionIdStart, hd]
      rw [hw]; exact ⟨h1, h2, h3, h4, h5, h6⟩
    · simp only [Bool.not_eq_true] at hd
      have hw : step cfg w Action.callGet = w := by
        simp [step, getRevisionIdStart, hd, h1]
      rw [hw]; exact ⟨h1, h2, h3, h4, h5, h6⟩
  | callRefresh =>
    by_cases hd : w.scope.disposed = true
    · have hw : step cfg w Action.callRefresh = w := by
        simp [step, refreshStart, hd]
      rw [hw]; exact ⟨h1, h2, h3, h4, h5, h6⟩
    · simp only [Bool.not_eq_true] at hd
      have hw : step cfg w Action.callRefresh = w := by
        simp [step, refreshStart, hd, hmode]
      rw [hw]; exact ⟨h1, h2, h3, h4, h5, h6⟩
  | callMarkStale =>
    have hw : step cfg w Action.callMarkStale = w := by
      simp [step, markStale, hmode]
    rw [hw]; exact ⟨h1, h2, h3, h4, h5, h6⟩
  | callDispose =>
    by_cases hd : w.scope.disposed = true
    · have hw : step cfg w Action.callDispose = w := by
        simp [step, disposeLocal, hd]
      rw [hw]; exact ⟨h1, h2, h3, h4, h5, h6⟩
    · have hw : step cfg w Action.callDispose =
          { w with scope := { w.scope with disposed := true } } := by
        simp [step, disposeLocal, hd]
      rw [hw]; exact ⟨h1, h2, h3, h4, h5, h6⟩
  | settleGetOk t id =>
    have hw : step cfg w (Action.settleGetOk t id) = w := by
      simp [step, h4]
    rw [hw]; exact ⟨h1, h2, h3, h4, h5, h6⟩
  | settleGetErr t =>
    have hw : step cfg w (Action.settleGetErr t) = w := by
      simp [step, h4]
    rw [hw]; exact ⟨h1, h2, h3, h4, h5, h6⟩
  | settleRefreshOk t id =>
    have hw : step cfg w (Action.settleRefreshOk t id) = w := by
      simp [step, h5]
    rw [hw]; exact ⟨h1, h2, h3, h4, h5, h6⟩
  | settleRefreshErr t =>
    have hw : step cfg w (Action.settleRefreshErr t) = w := by
      simp [step, h5]
    rw [hw]; exact ⟨h1, h2, h3, h4, h5, h6⟩

theorem run_preserves_ExplicitInv (cfg : ScopeConfig)
    (hmode : cfg.revisionMode = RevisionMode.explicit)
    (r0 : String) (n0 : Nat) (acts : List Action) (w : Sys)
    (h : ExplicitInv r0 n0 w) : ExplicitInv r0 n0 (run cfg w acts) := by
  induction acts generalizing w with
  | nil => exact h
  | cons a rest ih =>
    exact ih (step cfg w a)
      (step_preserves_ExplicitInv cfg hmode r0 n0 w a h)

/-!
## The claims
-/

/-- C2: on a stale, non-disposed handle two concurrent
`resolveRevisionId()` calls (the second starting before the first's
fetch resolves) issue exactly one underlying fetch — the first call
installs ticket `t1` in `_refreshPromise`, the second returns the very
same promise without fetching — and both callers receive the value of
that single fetch when it settles. -/
theorem c2_concurrent_resolve_single_fetch (s : ScopeState) (t1 t2 : Nat)
    (v : String) (h1 : s.disposed = false) (h2 : s.stale = true)
    (h3 : s.refreshPromise = none) :
    getRevisionIdStart s t1 =
      Except.ok ({ s with refreshPromise := some t1 },
        GetStart.awaitTicket t1 true) ∧
    getRevisionIdStart { s with refreshPromise := some t1 } t2 =
      Except.ok ({ s with refreshPromise := some t1 },
        GetStart.awaitTicket t1 false) ∧
    deliveredValue t1 t1 v = some v ∧
    (refreshFulfilled { s with refreshPromise := some t1 } v).revisionId =
      v ∧
    (refreshFulfilled { s with refreshPromise := some t1 } v).stale =
      false ∧
    (∀ cfg,
      (run cfg ⟨s, [], [], t1⟩
        [Action.callGet, Action.callGet]).nextTicket = t1 + 1 ∧
      (run cfg ⟨s, [], [], t1⟩
        [Action.callGet, Action.callGet]).pendingGet = [t1]) := by
  simp [getRevisionIdStart, deliveredValue, refreshFulfilled, run, step,
    h1, h2, h3]

/-- C4: when the in-flight refresh fetch of a stale handle fails, the
rejection handler clears `_refreshPromise` only — `stale` stays true,
the cached id and the disposed flag are untouched — the rejection is
delivered to every caller awaiting that attempt, and the next
`resolveRevisionId()` call starts a brand-new fetch (no retry inside
this layer). -/
theorem c4_refresh_failure_leaves_stale (s : ScopeState) (t fresh : Nat)
    (h1 : s.disposed = false) (h2 : s.stale = true)
    (h3 : s.refreshPromise = none) :
    getRevisionIdStart s t =
      Except.ok ({ s with refreshPromise := some t },
        GetStart.awaitTicket t true) ∧
    (refreshRejected { s with refreshPromise := some t }).stale = true ∧
    (refreshRejected { s with refreshPromise := some t }).revisionId =
      s.revisionId ∧
    (refreshRejected { s with refreshPromise := some t }).disposed =
      false ∧
    (refreshRejected { s with refreshPromise := some t }).refreshPromise =
      none ∧
    deliveredError t t = true ∧
    getRevisionIdStart
        (refreshRejected { s with refreshPromise := some t }) fresh =
      Except.ok
        ({ refreshRejected { s with refreshPromise := some t } with
            refreshPromise := some fresh },
          GetStart.awaitTicket fresh true) := by
  simp [getRevisionIdStart, refreshRejected, deliveredError, h1, h2, h3]

/-- C5 counterexample: draft handle, stale, `resolveRevisionId` starts
fetch 0; `markStale()` arrives while that fetch is in flight; the fetch
then fulfils with `d1`.  Contrary to the claim the handle does NOT
re-observe `stale == true`: the fulfilment handler unconditionally
cleared it, and the next `resolveRevisionId` returns the cached id
immediately instead of triggering a refresh. -/
theorem c5_counterexample :
    (run cfgDraftEx ⟨sStaleEx, [], [], 0⟩
      [Action.callGet, Action.callMarkStale,
       Action.settleGetOk 0 "d1"]).scope.stale = false ∧
    getRevisionIdStart
        (run cfgDraftEx ⟨sStaleEx, [], [], 0⟩
          [Action.callGet, Action.callMarkStale,
           Action.settleGetOk 0 "d1"]).scope 1 =
      Except.ok
        ((run cfgDraftEx ⟨sStaleEx, [], [], 0⟩
          [Action.callGet, Action.callMarkStale,
           Action.settleGetOk 0 "d1"]).scope,
          GetStart.immediate "d1") :=
  ⟨rfl, rfl⟩

/-- C5 (amended): staleness signalled by `markStale()` while the
handle's refresh fetch is in flight is absorbed by that refresh's
completion — the fulfilment handler unconditionally sets
`stale = false`, so the next `resolveRevisionId()` returns the id that
fetch delivered, without triggering a new refresh. -/
theorem c5_amended_inflight_stale_absorbed (cfg : ScopeConfig)
    (s : ScopeState) (t fresh : Nat) (id : String)
    (hmode : cfg.revisionMode ≠ RevisionMode.explicit)
    (hd : s.disposed = false) (hp : s.refreshPromise = some t) :
    (refreshFulfilled (markStale cfg s) id).stale = false ∧
    (refreshFulfilled (markStale cfg s) id).revisionId = id ∧
    getRevisionIdStart (refreshFulfilled (markStale cfg s) id) fresh =
      Except.ok (refreshFulfilled (markStale cfg s) id,
        GetStart.immediate id) := by
  simp [markStale, refreshFulfilled, getRevisionIdStart, hmode, hd]

/-- C6 counterexample: a stale draft handle where `resolveRevisionId`
has an in-flight fetch and `refresh()` is then called.  `refresh()`
bypasses `_refreshPromise` and issues its own fetch, so two revision-id
fetches of the same handle are outstanding simultaneously, refuting
"at most one outstanding refresh fetch per handle ... including the
public refresh() operation". -/
theorem c6_counterexample :
    getPathInvariant ⟨sStaleEx, [], [], 0⟩ ∧
    (run cfgDraftEx ⟨sStaleEx, [], [], 0⟩
        [Action.callGet, Action.callRefresh]).pendingGet.length +
      (run cfgDraftEx ⟨sStaleEx, [], [], 0⟩
        [Action.callGet, Action.callRefresh]).pendingRefresh.length =
      2 :=
  ⟨rfl, rfl⟩

/-- C6 (amended): at most one fetch issued through the
`resolveRevisionId`/`getRevisionId` path is outstanding at any time,
over every interleaving of the handle's operations — that is the
guarantee `_refreshPromise` provides.  (The public `refresh()` issues
its own fetch outside this cache, see the counterexample.) -/
theorem c6_amended_get_path_single_flight (cfg : ScopeConfig) (w : Sys)
    (acts : List Action) (h : getPathInvariant w) :
    (run cfg w acts).pendingGet.length ≤ 1 := by
  have h2 := run_preserves_getPathInvariant cfg acts w h
  unfold getPathInvariant at h2
  rw [h2]
  cases (run cfg w acts).scope.refreshPromise <;> simp [Option.toList]

/-- C8: a non-disposed handle with `isDraft == false` (head or explicit
mode, with its identity set) has every mutating data operation rejected
with `NotDraft` in the synchronous guard, before revision resolution
and before any remote call — the `rejected` outcome carries no state
update and starts no fetch. -/
theorem c8_not_draft_rejected (cfg : ScopeConfig) (s : ScopeState)
    (fresh : Nat) (hnd : s.disposed = false) (hdraft : cfg.isDraft = false)
    (horg : cfg.branch.organizationId ≠ "") :
    createRowStart cfg s fresh = MutStart.rejected ScopeError.notDraftErr := by
  simp [createRowStart, horg, hdraft]

/-- C10: `markStale` is total (never fails, disposed or not) and
modifies only the `stale` field — the cached id, the disposed flag and
the in-flight refresh are untouched; on a draft- or head-mode handle it
sets `stale := true`, on an explicit-mode handle it changes nothing. -/
theorem c10_markStale_frame (cfg : ScopeConfig) (s : ScopeState) :
    (markStale cfg s).revisionId = s.revisionId ∧
    (markStale cfg s).disposed = s.disposed ∧
    (markStale cfg s).refreshPromise = s.refreshPromise ∧
    (cfg.revisionMode ≠ RevisionMode.explicit →
      (markStale cfg s).stale = true) ∧
    (cfg.revisionMode = RevisionMode.explicit → markStale cfg s = s) := by
  unfold markStale
  by_cases hm : cfg.revisionMode = RevisionMode.explicit <;> simp [hm]

/-- C3: an explicit-mode handle is never stale and its cached id never
moves from the construction-time value, in every reachable state of the
trace semantics (`nextTicket` constant shows no fetch is ever issued);
`markStale()` followed by `resolveRevisionId()` is an immediate return
of the original id; and `commit`, `revertChanges` and `applyMigrations`
always reject on such a handle (it carries `isDraft == false`), so they
can never change the cached id. -/
theorem c3_explicit_immutable (cfg : ScopeConfig)
    (hmode : cfg.revisionMode = RevisionMode.explicit)
    (r0 : String) (n0 : Nat) :
    (∀ w0 acts, ExplicitInv r0 n0 w0 → ExplicitInv r0 n0 (run cfg w0 acts)) ∧
    (∀ w0 acts fresh, ExplicitInv r0 n0 w0 →
      (run cfg w0 (acts ++ [Action.callMarkStale])).scope.disposed = false →
      getRevisionIdStart
          (run cfg w0 (acts ++ [Action.callMarkStale])).scope fresh =
        Except.ok ((run cfg w0 (acts ++ [Action.callMarkStale])).scope,
          GetStart.immediate r0)) ∧
    (∀ ow i hF dF dD, (ow.handles i).cfg.isDraft = false →
      (∃ e, commitScope ow i hF dF dD = Except.error e) ∧
      (∃ e, revertScope ow i hF dF dD = Except.error e) ∧
      (∃ e, applyMigrationsGuard ow i = some e)) := by
  refine ⟨?_, ?_, ?_⟩
  · intro w0 acts h
    exact run_preserves_ExplicitInv cfg hmode r0 n0 acts w0 h
  · intro w0 acts fresh h hnd
    obtain ⟨a1, a2, a3, a4, a5, a6⟩ :=
      run_preserves_ExplicitInv cfg hmode r0 n0
        (acts ++ [Action.callMarkStale]) w0 h
    simp [getRevisionIdStart, hnd, a1, a2]
  · intro ow i hF dF dD hdraft
    by_cases hd : (ow.handles i).state.disposed = true
    · exact ⟨⟨ScopeError.disposedErr, by simp [commitScope, hd]⟩,
        ⟨ScopeError.disposedErr, by simp [revertScope, hd]⟩,
        ⟨ScopeError.disposedErr, by simp [applyMigrationsGuard, hd]⟩⟩
    · by_cases ho : (ow.handles i).cfg.branch.organizationId = ""
      · exact ⟨⟨ScopeError.contextNotSetErr, by simp [commitScope, hd, ho]⟩,
          ⟨ScopeError.contextNotSetErr, by simp [revertScope, hd, ho]⟩,
          ⟨ScopeError.contextNotSetErr,
            by simp [applyMigrationsGuard, hd, ho]⟩⟩
      · exact ⟨⟨ScopeError.notDraftErr,
            by simp [commitScope, hd, ho, hdraft]⟩,
          ⟨ScopeError.notDraftErr, by simp [revertScope, hd, ho, hdraft]⟩,
          ⟨ScopeError.notDraftErr,
            by simp [applyMigrationsGuard, hd, ho, hdraft]⟩⟩

theorem postMutationUpdate_handles (w : OwnerWorld) (i : Nat)
    (hF dF dD : String)
    (hkey : branchKey (w.handles i).cfg.branch = branchKey w.branch) :
    ((postMutationUpdate w i hF dF dD).handles i =
      { w.handles i with
          state := { (w.handles i).state with
                       revisionId := dD, stale := false } }) ∧
    (∀ j, j ≠ i → j ∈ w.registered →
      (postMutationUpdate w i hF dF dD).handles j =
        markStaleH (w.handles j)) ∧
    (∀ j, j ≠ i → j ∉ w.registered →
      (postMutationUpdate w i hF dF dD).handles j = w.handles j) := by
  refine ⟨?_, ?_, ?_⟩
  · simp [postMutationUpdate, notifyBranchChanged, refreshRevisionIds, hkey]
  · intro j hji hreg
    simp [postMutationUpdate, notifyBranchChanged, refreshRevisionIds,
      hkey, hreg, hji, Ne.symm hji]
  · intro j hji hreg
    simp [postMutationUpdate, notifyBranchChanged, refreshRevisionIds,
      hkey, hreg, hji]

/-- C1: after a successful `commit()` on a non-disposed draft handle
`A`, `A`'s cached id is the draft id re-fetched directly from the
remote (`dDirect`, not via the stale/refresh path — `_refreshPromise`
is untouched), `A.stale == false`, and every other registered draft- or
head-mode handle on `A`'s branch identity is stale: the broadcast
excludes exactly `A`, which updated itself first. -/
theorem c1_commit_updates_self_and_staleness (w : OwnerWorld) (i : Nat)
    (hF dF dD : String)
    (hnd : (w.handles i).state.disposed = false)
    (hmode : (w.handles i).cfg.revisionMode = RevisionMode.draft)
    (hdraft : (w.handles i).cfg.isDraft = true)
    (horg : (w.handles i).cfg.branch.organizationId ≠ "")
    (hkey : branchKey (w.handles i).cfg.branch = branchKey w.branch) :
    ∃ w2, commitScope w i hF dF dD = Except.ok w2 ∧
      (w2.handles i).state.revisionId = dD ∧
      (w2.handles i).state.stale = false ∧
      (w2.handles i).state.refreshPromise =
        (w.handles i).state.refreshPromise ∧
      ∀ j, j ∈ w.registered → j ≠ i →
        (w.handles j).cfg.branch = (w.handles i).cfg.branch →
        (w.handles j).cfg.revisionMode ≠ RevisionMode.explicit →
        (w2.handles j).state.stale = true := by
  obtain ⟨hself, hsib, -⟩ := postMutationUpdate_handles w i hF dF dD hkey
  refine ⟨postMutationUpdate w i hF dF dD, ?_, ?_, ?_, ?_, ?_⟩
  · simp [commitScope, hnd, horg, hdraft]
  · rw [hself]
  · rw [hself]
  · rw [hself]
  · intro j hj hne hb hm
    rw [hsib j hne hj]
    simp [markStaleH, markStale, hm]

/-- C9: `notifyBranchChanged(identity, excluding)` calls `markStale` on
every registered handle except the excluded one, leaves the excluded
and unregistered handles untouched, and is a no-op for a branch key
different from the owner's identity; disposing a (live) handle removes
exactly that handle from the registry, so a later broadcast still marks
every remaining sibling stale. -/
theorem c9_broadcast_and_unregister (w : OwnerWorld) (ex : Option Nat)
    (bk : String) (i : Nat)
    (hnd : (w.handles i).state.disposed = false) :
    (∀ j, j ∈ w.registered → ex ≠ some j →
      (notifyBranchChanged w (branchKey w.branch) ex).handles j =
        markStaleH (w.handles j)) ∧
    (∀ j, ex = some j →
      (notifyBranchChanged w (branchKey w.branch) ex).handles j =
        w.handles j) ∧
    (∀ j, j ∉ w.registered →
      (notifyBranchChanged w (branchKey w.branch) ex).handles j =
        w.handles j) ∧
    (bk ≠ branchKey w.branch → notifyBranchChanged w bk ex = w) ∧
    ((disposeScope w i).registered = w.registered.erase i) ∧
    (∀ j, j ≠ i → (disposeScope w i).handles j = w.handles j) ∧
    (∀ j, j ∈ w.registered → j ≠ i → ex ≠ some j →
      (notifyBranchChanged (disposeScope w i)
        (branchKey w.branch) ex).handles j = markStaleH (w.handles j)) := by
  refine ⟨?_, ?_, ?_, ?_, ?_, ?_, ?_⟩
  · intro j hreg hex
    simp [notifyBranchChanged, hreg, hex]
  · intro j hex
    subst hex
    simp [notifyBranchChanged]
  · intro j hreg
    simp [notifyBranchChanged, hreg]
  · intro hbk
    simp [notifyBranchChanged, hbk]
  · simp [disposeScope, hnd]
  · intro j hji
    simp [disposeScope, hnd, hji]
  · intro j hreg hji hex
    simp [notifyBranchChanged, disposeScope, hnd, Finset.mem_erase,
      hreg, hji, hex]

/-- C7 counterexample: a disposed head-mode handle calling `createRow`
is rejected with `NotDraft`, not `Disposed` — the draft guard
(`assertDraft`) runs before the disposed check, which only lives inside
`getRevisionId`. -/
theorem c7_counterexample :
    createRowStart cfgHeadEx
        { revisionId := "h0", stale := false, disposed := true,
          refreshPromise := none } 0 =
      MutStart.rejected ScopeError.notDraftErr ∧
    ScopeError.notDraftErr ≠ ScopeError.disposedErr :=
  ⟨rfl, by decide⟩

/-- C7 (amended): on a disposed draft handle, mutating data operations
fail with `Disposed` (the draft guard passes, then the disposed check
inside `getRevisionId` fires); on a disposed head- or explicit-mode
handle they fail with `NotDraft`, because the draft guard runs first.
The scope-level `commit`, `revertChanges` and `applyMigrations` check
disposal before anything else and fail with `Disposed` in every
mode. -/
theorem c7_amended_disposed_failures :
    (∀ cfg s fresh, s.disposed = true → cfg.isDraft = true →
      cfg.branch.organizationId ≠ "" →
      createRowStart cfg s fresh =
        MutStart.rejected ScopeError.disposedErr) ∧
    (∀ cfg s fresh, s.disposed = true → cfg.isDraft = false →
      cfg.branch.organizationId ≠ "" →
      createRowStart cfg s fresh =
        MutStart.rejected ScopeError.notDraftErr) ∧
    (∀ w i hF dF dD, (w.handles i).state.disposed = true →
      commitScope w i hF dF dD = Except.error ScopeError.disposedErr ∧
      revertScope w i hF dF dD = Except.error ScopeError.disposedErr ∧
      applyMigrationsGuard w i = some ScopeError.disposedErr) := by
  refine ⟨?_, ?_, ?_⟩
  · intro cfg s fresh hd hdraft horg
    simp [createRowStart, horg, hdraft, getRevisionIdStart, hd]
  · intro cfg s fresh hd hdraft horg
    simp [createRowStart, horg, hdraft]
  · intro w i hF dF dD hd
    exact ⟨by simp [commitScope, hd], by simp [revertScope, hd],
      by simp [applyMigrationsGuard, hd]⟩

/-!
## Witnesses: each theorem above that carries hypotheses, applied at a
concrete input.
-/

/-- Witness for C1: commit on draft handle 0 of the example owner. -/
theorem c1_witness :
    (ownerEx.handles 0).state.disposed = false ∧
    (ownerEx.handles 0).cfg.isDraft = true ∧
    branchKey (ownerEx.handles 0).cfg.branch = branchKey ownerEx.branch ∧
    ∃ w2, commitScope ownerEx 0 "h1" "d1" "d1" = Except.ok w2 ∧
      (w2.handles 0).state.revisionId = "d1" ∧
      (w2.handles 0).state.stale = false ∧
      (w2.handles 0).state.refreshPromise =
        (ownerEx.handles 0).state.refreshPromise ∧
      ∀ j, j ∈ ownerEx.registered → j ≠ 0 →
        (ownerEx.handles j).cfg.branch = (ownerEx.handles 0).cfg.branch →
        (ownerEx.handles j).cfg.revisionMode ≠ RevisionMode.explicit →
        (w2.handles j).state.stale = true :=
  ⟨rfl, rfl, rfl,
    c1_commit_updates_self_and_staleness ownerEx 0 "h1" "d1" "d1"
      rfl rfl rfl (by decide) rfl⟩

/-- Witness for C2 at a concrete stale scope. -/
theorem c2_witness :
    sStaleEx.disposed = false ∧ sStaleEx.stale = true ∧
    sStaleEx.refreshPromise = none ∧
    getRevisionIdStart sStaleEx 0 =
      Except.ok ({ sStaleEx with refreshPromise := some 0 },
        GetStart.awaitTicket 0 true) :=
  ⟨rfl, rfl, rfl,
    (c2_concurrent_resolve_single_fetch sStaleEx 0 1 "d1" rfl rfl rfl).1⟩

/-- Witness for C3 at a concrete explicit handle and trace. -/
theorem c3_witness :
    cfgExplicitEx.revisionMode = RevisionMode.explicit ∧
    ExplicitInv "h0" 0
      (run cfgExplicitEx
        ⟨{ revisionId := "h0", stale := false, disposed := false,
           refreshPromise := none }, [], [], 0⟩
        [Action.callMarkStale, Action.callGet, Action.callRefresh]) :=
  ⟨rfl,
    (c3_explicit_immutable cfgExplicitEx rfl "h0" 0).1 _
      [Action.callMarkStale, Action.callGet, Action.callRefresh]
      ⟨rfl, rfl, rfl, rfl, rfl, rfl⟩⟩

/-- Witness for C4 at a concrete stale scope whose fetch fails. -/
theorem c4_witness :
    sStaleEx.stale = true ∧
    (refreshRejected { sStaleEx with refreshPromise := some 0 }).stale =
      true ∧
    (refreshRejected
      { sStaleEx with refreshPromise := some 0 }).refreshPromise = none :=
  ⟨rfl,
    (c4_refresh_failure_leaves_stale sStaleEx 0 1 rfl rfl rfl).2.1,
    (c4_refresh_failure_leaves_stale sStaleEx 0 1 rfl rfl rfl).2.2.2.2.1⟩

/-- Witness for the amended C5 at a concrete draft scope with an
in-flight refresh. -/
theorem c5_amended_witness :
    cfgDraftEx.revisionMode ≠ RevisionMode.explicit ∧
    (refreshFulfilled
      (markStale cfgDraftEx { sStaleEx with refreshPromise := some 0 })
      "d1").stale = false :=
  ⟨by decide,
    (c5_amended_inflight_stale_absorbed cfgDraftEx
      { sStaleEx with refreshPromise := some 0 } 0 1 "d1" (by decide)
      rfl rfl).1⟩

/-- Witness for the amended C6 at a concrete scope and trace. -/
theorem c6_amended_witness :
    getPathInvariant ⟨sFreshEx, [], [], 0⟩ ∧
    (run cfgDraftEx ⟨sFreshEx, [], [], 0⟩
      [Action.callMarkStale, Action.callGet,
       Action.callGet]).pendingGet.length ≤ 1 :=
  ⟨rfl,
    c6_amended_get_path_single_flight cfgDraftEx ⟨sFreshEx, [], [], 0⟩
      [Action.callMarkStale, Action.callGet, Action.callGet] rfl⟩

/-- Witness for the amended C7: disposed draft handle fails `Disposed`,
disposed head handle fails `NotDraft`, disposed commit fails
`Disposed`. -/
theorem c7_amended_witness :
    sDisposedEx.disposed = true ∧
    createRowStart cfgDraftEx sDisposedEx 0 =
      MutStart.rejected ScopeError.disposedErr ∧
    createRowStart cfgHeadEx sDisposedEx 0 =
      MutStart.rejected ScopeError.notDraftErr :=
  ⟨rfl,
    c7_amended_disposed_failures.1 cfgDraftEx sDisposedEx 0 rfl rfl
      (by decide),
    c7_amended_disposed_failures.2.1 cfgHeadEx sDisposedEx 0 rfl rfl
      (by decide)⟩

/-- Witness for C8: a live head handle is rejected with `NotDraft`. -/
theorem c8_witness :
    cfgHeadEx.isDraft = false ∧ sFreshEx.disposed = false ∧
    createRowStart cfgHeadEx sFreshEx 0 =
      MutStart.rejected ScopeError.notDraftErr :=
  ⟨rfl, rfl, c8_not_draft_rejected cfgHeadEx sFreshEx 0 rfl rfl (by decide)⟩

/-- Witness for C9 at the example owner: disposing handle 1 removes
exactly it from the registry. -/
theorem c9_witness :
    (ownerEx.handles 1).state.disposed = false ∧
    (disposeScope ownerEx 1).registered = ownerEx.registered.erase 1 :=
  ⟨rfl,
    (c9_broadcast_and_unregister ownerEx (some 0) "other" 1
      rfl).2.2.2.2.1⟩

/-- Witness for C10 at a concrete disposed draft-mode scope. -/
theorem c10_witness :
    (markStale cfgDraftEx sDisposedEx).stale = true ∧
    (markStale cfgDraftEx sDisposedEx).disposed = sDisposedEx.disposed :=
  ⟨(c10_markStale_frame cfgDraftEx sDisposedEx).2.2.2.1 (by decide),
    (c10_markStale_frame cfgDraftEx sDisposedEx).2.1⟩

end Revisium
